import Mathlib

/-!
Verification of the login-handshake TLV codec of this repository
(`src/core/tlv.ts`): the per-tag encoder registry `map`, the framing
function `packTlv`, and the proof-of-work construction of tag 0x548.

Byte strings (Node `Buffer`s) are modelled as `List Nat`, each element one
byte.  String-valued profile fields (device model, OS type, domain names,
...) are modelled at the byte level, as in the wire format; for them JS
`String.prototype.slice` coincides with `List.take` on single-byte
characters.  External collaborators that are not part of this repository's
core (Node `crypto` randomness and hashes, the TEA block cipher, the
protobuf encoder, the external signer and PoW solver, the wall clock) are
passed in through an explicit `Env` record of opaque functions, so every
encoder is a pure function of `(client state, arguments, environment)`.
-/

namespace Tlv

/-- A byte string: one `Nat` per byte. -/
abbrev Bytes := List Nat

/-- One byte, as written by `writeUInt8` (reduced mod 256). -/
def u8 (n : Nat) : Bytes := [n % 256]

/-- Two bytes, big-endian, as written by `writeUInt16BE`. -/
def u16be (n : Nat) : Bytes := [n / 256 % 256, n % 256]

/-- Four bytes, big-endian, as written by `writeUInt32BE` / `writeInt32BE`
(both emit the value's low 32 bits big-endian). -/
def u32be (n : Nat) : Bytes :=
  [n / 2 ^ 24 % 256, n / 2 ^ 16 % 256, n / 2 ^ 8 % 256, n % 256]

/-- Eight bytes, big-endian, as written by `writeU64`. -/
def u64be (n : Nat) : Bytes :=
  [n / 2 ^ 56 % 256, n / 2 ^ 48 % 256, n / 2 ^ 40 % 256, n / 2 ^ 32 % 256,
   n / 2 ^ 24 % 256, n / 2 ^ 16 % 256, n / 2 ^ 8 % 256, n % 256]

/-- Big-endian value of a byte string (`BigInt('0x' + buf.toString('hex'))`). -/
def beVal (bs : Bytes) : Nat := bs.foldl (fun a b => 256 * a + b) 0

/-- The 2-byte-length-prefixed field helper (`Writer.writeTlv`). -/
def wtlv (b : Bytes) : Bytes := u16be b.length ++ b

/-- UTF-8 bytes of an ASCII string literal (`Buffer.from(s)`). -/
def strBytes (s : String) : Bytes := s.data.map Char.toNat

/-- Low 32 bits of a JS number passed to a 32-bit write (two's complement). -/
def intToU32 (v : Int) : Nat := (v % (2 ^ 32 : Int)).toNat

/-- Modelled from the spec: the Binary Writer of `src/core/writer.ts`, which
is not under `src/`.  Spec section 4.1: an append-only builder of big-endian
binary output with length-prefixed-field helpers; `unshift` prepends (used
for the outer tag/length header); `read()` finalizes and returns the
accumulated bytes, draining the underlying Node `Readable` stream, so a
later `read()` returns only bytes written after the previous one. -/
structure Writer where
  buf : Bytes

/-- `new Writer()`. -/
def Writer.empty : Writer := ⟨[]⟩

def Writer.writeU8 (w : Writer) (v : Nat) : Writer := ⟨w.buf ++ u8 v⟩

def Writer.writeU16 (w : Writer) (v : Nat) : Writer := ⟨w.buf ++ u16be v⟩

def Writer.writeU32 (w : Writer) (v : Nat) : Writer := ⟨w.buf ++ u32be v⟩

/-- `write32` (signed 32-bit write): same four bytes as the unsigned write
of the value's low 32 bits. -/
def Writer.write32 (w : Writer) (v : Nat) : Writer := ⟨w.buf ++ u32be v⟩

def Writer.writeU64 (w : Writer) (v : Nat) : Writer := ⟨w.buf ++ u64be v⟩

def Writer.writeBytes (w : Writer) (b : Bytes) : Writer := ⟨w.buf ++ b⟩

def Writer.writeTlv (w : Writer) (b : Bytes) : Writer := ⟨w.buf ++ wtlv b⟩

/-- Prepend, as Node `Readable.unshift`. -/
def Writer.unshift (w : Writer) (b : Bytes) : Writer := ⟨b ++ w.buf⟩

/-- Finalize: return the accumulated bytes (the drained stream content). -/
def Writer.read (w : Writer) : Bytes := w.buf

/-- One variadic JS argument of a tag encoder: a number or a byte buffer. -/
inductive Arg
  | num (v : Int)
  | buf (b : Bytes)

/-- The `i`-th argument when it is a number (`undefined` otherwise). -/
def argNum (args : List Arg) (i : Nat) : Option Int :=
  match args[i]? with
  | some (.num v) => some v
  | _ => none

/-- The `i`-th argument when it is a buffer (`undefined` otherwise). -/
def argBuf (args : List Arg) (i : Nat) : Option Bytes :=
  match args[i]? with
  | some (.buf b) => some b
  | _ => none

/-- Modelled from the spec: OS version descriptors of the device profile
(`device.version` of `src/core/device.ts`, not under `src/`); only the
fields read by the encoders appear. -/
structure OsVersion where
  incremental : Bytes
  release : Bytes
  codename : Bytes

/-- Modelled from the spec: the device profile (spec section 6), byte/string
fields read by the encoders of `src/core/tlv.ts`. -/
structure Device where
  ip_address : Bytes
  guid : Bytes
  imei : Bytes
  imsi : Bytes
  mac_address : Bytes
  android_id : Bytes
  model : Bytes
  brand : Bytes
  os_type : Bytes
  sim : Bytes
  apn : Bytes
  wifi_bssid : Bytes
  wifi_ssid : Bytes
  bootloader : Bytes
  proc_version : Bytes
  fingerprint : Bytes
  boot_id : Bytes
  baseband : Bytes
  version : OsVersion

/-- Modelled from the spec: the application profile (spec section 6). -/
structure Apk where
  id : Bytes
  ver : Bytes
  sign : Bytes
  sdkver : Bytes
  name : Bytes
  ssover : Nat
  appid : Nat
  subid : Nat
  bitmap : Nat
  main_sig_map : Nat
  sub_sig_map : Nat
  buildtime : Nat

/-- Modelled from the spec: the Session Signature State (spec section 3) —
tickets, session keys and the sequence counter read by the encoders. -/
structure Sig where
  t104 : Bytes
  tgtgt : Bytes
  tgt : Bytes
  d2 : Bytes
  srm_token : Bytes
  t174 : Bytes
  t547 : Bytes
  ksid : Option Bytes
  seq : Nat

/-- Modelled from the spec: the shape of the client session object
(`src/core/base-client.ts`, not under `src/`) that the encoders borrow
read-only. -/
structure BaseClient where
  uin : Nat
  device : Device
  apk : Apk
  sig : Sig

/-- Modelled from the spec: the external collaborators of the codec (spec
sections 4.2, 4.3, 6) — secure randomness, the wall clock, the MD5 and
SHA-256 hashes, the TEA block cipher, the protobuf encoder, the external
signer and the external PoW solver.  `rand n` is the fresh draw of
`crypto.randomBytes(n)` made by the encoder under consideration, and
`draws` is the stream of 1-byte redraws of the tag-0x548 seed loop. -/
structure Env where
  rand : Nat → Bytes
  draws : List Nat
  nowMs : Nat
  md5 : Bytes → Bytes
  sha256 : Bytes → Bytes
  teaEncrypt : Bytes → Bytes → Bytes
  pbEncode : List (Nat × Bytes) → Bytes
  sign : Nat → Bytes → Bytes
  calcPoW : Bytes → Bytes

/-- The type of a registry encoder: session state, call arguments and
environment in; payload bytes and the (unchanged) session state out. -/
abbrev Enc := BaseClient → List Arg → Env → Bytes × BaseClient

/-- `(Date.now() / 1000) & 0xffffffff`: Unix seconds truncated to 32 bits. -/
def now32 (env : Env) : Nat := env.nowMs / 1000 % 2 ^ 32

/-- Decimal-string bytes of a number (`Buffer.from(String(n))`). -/
def decBytes (n : Nat) : Bytes := (Nat.toDigits 10 n).map Char.toNat

/-- Encoder of tag 0x01. -/
def t01 : Enc := fun c _ env =>
  ((Writer.empty.writeU16 1 |>.writeBytes (env.rand 4) |>.writeU32 c.uin
      |>.write32 (now32 env) |>.writeBytes c.device.ip_address
      |>.writeU16 0).read, c)

/-- Encoder of tag 0x08. -/
def t08 : Enc := fun c _ _ =>
  ((Writer.empty.writeU16 0 |>.writeU32 2052 |>.writeU16 0).read, c)

/-- Encoder of tag 0x16. -/
def t16 : Enc := fun c _ _ =>
  ((Writer.empty.writeU32 c.apk.ssover |>.writeU32 c.apk.appid
      |>.writeU32 c.apk.subid |>.writeBytes c.device.guid
      |>.writeTlv c.apk.id |>.writeTlv c.apk.ver
      |>.writeTlv c.apk.sign).read, c)

/-- Encoder of tag 0x18. -/
def t18 : Enc := fun c _ _ =>
  ((Writer.empty.writeU16 1 |>.writeU32 1536 |>.writeU32 c.apk.appid
      |>.writeU32 0 |>.writeU32 c.uin |>.writeU16 0 |>.writeU16 0).read, c)

/-- Encoder of tag 0x1B. -/
def t1B : Enc := fun c _ _ =>
  ((Writer.empty.writeU32 0 |>.writeU32 0 |>.writeU32 3 |>.writeU32 4
      |>.writeU32 72 |>.writeU32 2 |>.writeU32 2 |>.writeU16 0).read, c)

/-- Encoder of tag 0x1D. -/
def t1D : Enc := fun c _ _ =>
  ((Writer.empty.writeU8 1 |>.writeU32 c.apk.bitmap |>.writeU32 0
      |>.writeU8 0 |>.writeU32 0).read, c)

/-- Encoder of tag 0x1F. -/
def t1F : Enc := fun c _ _ =>
  ((Writer.empty.writeU8 0 |>.writeTlv (strBytes "android")
      |>.writeTlv (strBytes "7.1.2") |>.writeU16 2
      |>.writeTlv (strBytes "China Mobile GSM") |>.writeTlv []
      |>.writeTlv (strBytes "wifi")).read, c)

/-- Encoder of tag 0x33. -/
def t33 : Enc := fun c _ _ =>
  ((Writer.empty.writeBytes c.device.guid).read, c)

/-- Encoder of tag 0x35 (`deviceType` argument). -/
def t35 : Enc := fun c args _ =>
  ((Writer.empty.writeU32 (intToU32 ((argNum args 0).getD 0))).read, c)

/-- Encoder of tag 0x100 (`sub_id` argument; `sub_id || this.apk.subid`
falls back to the profile sub-id when the argument is 0 or missing). -/
def t100 : Enc := fun c args _ =>
  ((Writer.empty.writeU16 1 |>.writeU32 c.apk.ssover |>.write32 c.apk.appid
      |>.writeU32 (match argNum args 0 with
        | some v => if v = 0 then c.apk.subid else intToU32 v
        | none => c.apk.subid)
      |>.writeU32 0 |>.writeU32 c.apk.main_sig_map).read, c)

/-- Encoder of tag 0x104. -/
def t104 : Enc := fun c _ _ =>
  ((Writer.empty.writeBytes c.sig.t104).read, c)

/-- Encoder of tag 0x106 (`md5pass` argument). -/
def t106 : Enc := fun c args env =>
  ((Writer.empty.writeBytes (env.teaEncrypt
      ((Writer.empty.writeU16 4 |>.writeBytes (env.rand 4)
          |>.writeU32 c.apk.ssover |>.writeU32 c.apk.appid |>.writeU32 0
          |>.writeU64 c.uin |>.write32 (now32 env)
          |>.writeBytes (List.replicate 4 0) |>.writeU8 1
          |>.writeBytes ((argBuf args 0).getD []) |>.writeBytes c.sig.tgtgt
          |>.writeU32 0 |>.writeU8 1 |>.writeBytes c.device.guid
          |>.writeU32 c.apk.subid |>.writeU32 1
          |>.writeTlv (decBytes c.uin) |>.writeU16 0).read)
      (env.md5 (((argBuf args 0).getD []) ++ List.replicate 4 0
        ++ u32be c.uin)))).read, c)

/-- Encoder of tag 0x107. -/
def t107 : Enc := fun c _ _ =>
  ((Writer.empty.writeU16 0 |>.writeU8 0 |>.writeU16 0 |>.writeU8 1).read, c)

/-- Encoder of tag 0x108 (`this.sig.ksid` falls back to
`Buffer.from("|" + imei + "|" + apk.name)` when absent). -/
def t108 : Enc := fun c _ _ =>
  ((Writer.empty.writeBytes (match c.sig.ksid with
      | some k => k
      | none => strBytes "|" ++ c.device.imei ++ strBytes "|"
          ++ c.apk.name)).read, c)

/-- Encoder of tag 0x109. -/
def t109 : Enc := fun c _ env =>
  ((Writer.empty.writeBytes (env.md5 c.device.imei)).read, c)

/-- Encoder of tag 0x10a. -/
def t10a : Enc := fun c _ _ =>
  ((Writer.empty.writeBytes c.sig.tgt).read, c)

/-- Encoder of tag 0x112. -/
def t112 : Enc := fun c _ _ =>
  ((Writer.empty.writeTlv (decBytes c.uin)).read, c)

/-- Encoder of tag 0x116. -/
def t116 : Enc := fun c _ _ =>
  ((Writer.empty.writeU8 0 |>.writeU32 c.apk.bitmap
      |>.writeU32 c.apk.sub_sig_map |>.writeU8 1
      |>.writeU32 1600000226).read, c)

/-- Encoder of tag 0x124 (device strings truncated with `slice(0, 16)`). -/
def t124 : Enc := fun c _ _ =>
  ((Writer.empty.writeTlv (c.device.os_type.take 16)
      |>.writeTlv (c.device.version.release.take 16) |>.writeU16 2
      |>.writeTlv (c.device.sim.take 16) |>.writeU16 0
      |>.writeTlv (c.device.apn.take 16)).read, c)

/-- Encoder of tag 0x128 (`model.slice(0, 32)`, `guid.slice(0, 16)`,
`brand.slice(0, 16)`). -/
def t128 : Enc := fun c _ _ =>
  ((Writer.empty.writeU16 0 |>.writeU8 0 |>.writeU8 1 |>.writeU8 0
      |>.writeU32 16777216 |>.writeTlv (c.device.model.take 32)
      |>.writeTlv (c.device.guid.take 16)
      |>.writeTlv (c.device.brand.take 16)).read, c)

/-- Encoder of tag 0x141. -/
def t141 : Enc := fun c _ _ =>
  ((Writer.empty.writeU16 1 |>.writeTlv c.device.sim |>.writeU16 2
      |>.writeTlv c.device.apn).read, c)

/-- Encoder of tag 0x142. -/
def t142 : Enc := fun c _ _ =>
  ((Writer.empty.writeU16 0 |>.writeTlv (c.apk.id.take 32)).read, c)

/-- Encoder of tag 0x143. -/
def t143 : Enc := fun c _ _ =>
  ((Writer.empty.writeBytes c.sig.d2).read, c)

/-- Frame one TLV block: 2-byte tag, 2-byte length, payload.  `packTlv`
prepends the length and then the tag with `unshift`, so the header order is
`tag || length`; this helper is the framing applied to an encoder's output,
used by the composite encoder of tag 0x144, whose inner
`packTlv.call(this, t)` calls resolve `map[t]` to the encoders below. -/
def pack1 (tag : Nat) (payload : Bytes) : Bytes :=
  u16be tag ++ u16be payload.length ++ payload

/-- Encoder of tag 0x16e. -/
def t16e : Enc := fun c _ _ =>
  ((Writer.empty.writeBytes c.device.model).read, c)

/-- Encoder of tag 0x52d (protobuf-encoded device info). -/
def t52d : Enc := fun c _ env =>
  ((Writer.empty.writeBytes (env.pbEncode
      [(1, c.device.bootloader), (2, c.device.proc_version),
       (3, c.device.version.codename), (4, c.device.version.incremental),
       (5, c.device.fingerprint), (6, c.device.boot_id),
       (7, c.device.android_id), (8, c.device.baseband),
       (9, c.device.version.incremental)])).read, c)

/-- Encoder of tag 0x144: a count of 5 and the packed TLV blocks of tags
0x109, 0x52d, 0x124, 0x128 and 0x16e, TEA-encrypted under `sig.tgtgt`. -/
def t144 : Enc := fun c _ env =>
  ((Writer.empty.writeBytes (env.teaEncrypt
      ((Writer.empty.writeU16 5
          |>.writeBytes (pack1 0x109 (t109 c [] env).1)
          |>.writeBytes (pack1 0x52d (t52d c [] env).1)
          |>.writeBytes (pack1 0x124 (t124 c [] env).1)
          |>.writeBytes (pack1 0x128 (t128 c [] env).1)
          |>.writeBytes (pack1 0x16e (t16e c [] env).1)).read)
      c.sig.tgtgt)).read, c)

/-- Encoder of tag 0x145. -/
def t145 : Enc := fun c _ _ =>
  ((Writer.empty.writeBytes c.device.guid).read, c)

/-- Encoder of tag 0x147. -/
def t147 : Enc := fun c _ _ =>
  ((Writer.empty.writeU32 c.apk.appid |>.writeTlv c.apk.ver
      |>.writeTlv c.apk.sign).read, c)

/-- Encoder of tag 0x154: the sequence counter plus one, written without
advancing the counter. -/
def t154 : Enc := fun c _ _ =>
  ((Writer.empty.writeU32 (c.sig.seq + 1)).read, c)

/-- Encoder of tag 0x16a (`srm_token || this.sig.srm_token`). -/
def t16a : Enc := fun c args _ =>
  ((Writer.empty.writeBytes ((argBuf args 0).getD c.sig.srm_token)).read, c)

/-- Encoder of tag 0x174. -/
def t174 : Enc := fun c _ _ =>
  ((Writer.empty.writeBytes c.sig.t174).read, c)

/-- Encoder of tag 0x177. -/
def t177 : Enc := fun c _ _ =>
  ((Writer.empty.writeU8 1 |>.writeU32 c.apk.buildtime
      |>.writeTlv c.apk.sdkver).read, c)

/-- Encoder of tag 0x17a. -/
def t17a : Enc := fun c _ _ =>
  ((Writer.empty.writeU32 9).read, c)

/-- Encoder of tag 0x17c (`code` argument). -/
def t17c : Enc := fun c args _ =>
  ((Writer.empty.writeTlv ((argBuf args 0).getD [])).read, c)

/-- Encoder of tag 0x187. -/
def t187 : Enc := fun c _ env =>
  ((Writer.empty.writeBytes (env.md5 c.device.mac_address)).read, c)

/-- Encoder of tag 0x188. -/
def t188 : Enc := fun c _ env =>
  ((Writer.empty.writeBytes (env.md5 c.device.android_id)).read, c)

/-- Encoder of tag 0x191. -/
def t191 : Enc := fun c _ _ =>
  ((Writer.empty.writeU8 0x82).read, c)

/-- Encoder of tag 0x193 (`ticket` argument). -/
def t193 : Enc := fun c args _ =>
  ((Writer.empty.writeBytes ((argBuf args 0).getD [])).read, c)

/-- Encoder of tag 0x194. -/
def t194 : Enc := fun c _ _ =>
  ((Writer.empty.writeBytes c.device.imsi).read, c)

/-- Encoder of tag 0x197. -/
def t197 : Enc := fun c _ _ =>
  ((Writer.empty.writeTlv (List.replicate 1 0)).read, c)

/-- Encoder of tag 0x198. -/
def t198 : Enc := fun c _ _ =>
  ((Writer.empty.writeTlv (List.replicate 1 0)).read, c)

/-- Encoder of tag 0x202. -/
def t202 : Enc := fun c _ _ =>
  ((Writer.empty.writeTlv (c.device.wifi_bssid.take 16)
      |>.writeTlv (c.device.wifi_ssid.take 32)).read, c)

/-- Encoder of tag 0x400. -/
def t400 : Enc := fun c _ env =>
  ((Writer.empty.writeU16 1 |>.writeU64 c.uin |>.writeBytes c.device.guid
      |>.writeBytes (env.rand 16) |>.write32 1 |>.write32 16
      |>.write32 (now32 env) |>.writeBytes []).read, c)

/-- Encoder of tag 0x401. -/
def t401 : Enc := fun c _ env =>
  ((Writer.empty.writeBytes (env.rand 16)).read, c)

/-- The enabled entries of the tag-0x511 domain set, in source order (the
commented-out entries are excluded). -/
def enabledDomains : List Bytes :=
  [strBytes "aq.qq.com", strBytes "connect.qq.com", strBytes "docs.qq.com",
   strBytes "game.qq.com", strBytes "gamecenter.qq.com",
   strBytes "haoma.qq.com", strBytes "id.qq.com", strBytes "kg.qq.com",
   strBytes "mail.qq.com", strBytes "mma.qq.com", strBytes "office.qq.com",
   strBytes "openmobile.qq.com", strBytes "qqweb.qq.com",
   strBytes "qun.qq.com", strBytes "qzone.qq.com", strBytes "ti.qq.com",
   strBytes "v.qq.com", strBytes "vip.qq.com", strBytes "y.qq.com"]

/-- The `Set<Domain>` of tag 0x511: insertion order with duplicates
removed (a JS `Set` keeps the first occurrence). -/
def domainsSet : List Bytes := enabledDomains.eraseDups

/-- Encoder of tag 0x511: the set size, then one `(0x01, length-prefixed
domain)` entry per set element, in iteration order. -/
def t511 : Enc := fun c _ _ =>
  ((domainsSet.foldl (fun s v => (s.writeU8 1).writeTlv v)
      (Writer.empty.writeU16 domainsSet.length)).read, c)

/-- Encoder of tag 0x516. -/
def t516 : Enc := fun c _ _ =>
  ((Writer.empty.writeU32 0).read, c)

/-- Encoder of tag 0x521 (`type` argument). -/
def t521 : Enc := fun c args _ =>
  ((Writer.empty.writeU32 (intToU32 ((argNum args 0).getD 0))
      |>.writeU16 0).read, c)

/-- Encoder of tag 0x525. -/
def t525 : Enc := fun c _ _ =>
  ((Writer.empty.writeU16 1 |>.writeU16 0x536 |>.writeTlv [2, 1, 0]).read, c)

/-- Encoder of tag 0x523. -/
def t523 : Enc := fun c _ _ =>
  ((Writer.empty.writeTlv [1, 0]).read, c)

/-- Encoder of tag 0x542. -/
def t542 : Enc := fun c _ _ =>
  ((Writer.empty.writeBytes [0x4A, 0x02, 0x60, 0x01]).read, c)

/-- Encoder of tag 0x544 (`v`, `subCmd`, `signData = BUF0` arguments):
`v == -1` passes the supplied signature through; `v === 2` signs the
zero-placeholder salt variant, any other version the uin-based variant. -/
def t544 : Enc := fun c args env =>
  ((if (argNum args 0).getD 0 = -1 then
      Writer.empty.writeBytes ((argBuf args 2).getD [])
    else if (argNum args 0).getD 0 = 2 then
      Writer.empty.writeBytes (env.sign env.nowMs
        ((Writer.empty.writeU32 0 |>.writeTlv c.device.guid
            |>.writeTlv c.apk.sdkver
            |>.writeU32 (intToU32 ((argNum args 1).getD 0))
            |>.writeU32 0).read))
    else
      Writer.empty.writeBytes (env.sign env.nowMs
        ((Writer.empty.writeU64 c.uin |>.writeTlv c.device.guid
            |>.writeTlv c.apk.sdkver
            |>.writeU32 (intToU32 ((argNum args 1).getD 0))).read))).read, c)

/-- Encoder of tag 0x545 (`qImei` argument, defaulting to the imei). -/
def t545 : Enc := fun c args env =>
  ((Writer.empty.writeBytes
      (env.md5 ((argBuf args 0).getD c.device.imei))).read, c)

/-- Encoder of tag 0x547. -/
def t547 : Enc := fun c _ _ =>
  ((Writer.empty.writeBytes c.sig.t547).read, c)

/-- The seed-fixing loop of tag 0x548: while the first byte is 0x00 or
0xFF, replace it with the next 1-byte random draw (returning the last draw
if the modelled draw stream runs out). -/
def resampleFirst (b : Nat) : List Nat → Nat
  | [] => b
  | d :: ds => if b = 0 ∨ b = 255 then resampleFirst d ds else b

/-- The 128-byte PoW seed `src`: `crypto.randomBytes(128)` with the first
byte resampled until it is neither 0x00 nor 0xFF. -/
def powSrc (env : Env) : Bytes :=
  match env.rand 128 with
  | [] => []
  | b :: rest => resampleFirst b env.draws :: rest

/-- Hex digits of a byte string (`buf.toString("hex")`, one digit per
nibble, as digit values). -/
def bytesToHexDigits (bs : Bytes) : List Nat :=
  bs.flatMap (fun b => [b / 16, b % 16])

/-- Value of a hex-digit string (`BigInt('0x' + s)`). -/
def hexVal (ds : List Nat) : Nat := ds.foldl (fun a d => 16 * a + d) 0

/-- Minimal hex digits of a number, most significant first, with fuel
(enough fuel is always supplied below). -/
def natToHexDigitsAux : Nat → Nat → List Nat
  | 0, _ => []
  | fuel + 1, n =>
    if n = 0 then [] else natToHexDigitsAux fuel (n / 16) ++ [n % 16]

/-- `n.toString(16)` as digit values (`"0"` for zero). -/
def natToHexDigits (n : Nat) : List Nat :=
  if n = 0 then [0] else natToHexDigitsAux n n

/-- `s.padStart(w, "0")`. -/
def padStart (w : Nat) (ds : List Nat) : List Nat :=
  List.replicate (w - ds.length) 0 ++ ds

/-- `Buffer.from(s, "hex")`: consecutive digit pairs become bytes (a
trailing lone digit is dropped). -/
def hexDigitsToBytes : List Nat → Bytes
  | d1 :: d2 :: rest => (16 * d1 + d2) :: hexDigitsToBytes rest
  | _ => []

/-- The PoW target `dst` of tag 0x548: the seed as a big integer plus
10000, re-encoded through `toString(16).padStart(256, "0")` and hex
decoding. -/
def powDst (src : Bytes) : Bytes :=
  hexDigitsToBytes (padStart 256
    (natToHexDigits (hexVal (bytesToHexDigits src) + 10000)))

/-- The PoW verification digest `tgt` of tag 0x548: SHA-256 of the target. -/
def powDigest (env : Env) : Bytes := env.sha256 (powDst (powSrc env))

/-- The assembled t546 challenge of tag 0x548.  The first `read()` drains
the writer, so the final `read()` returns only the raw copy and the
length-prefixed copy written after it. -/
def powT546 (env : Env) : Bytes :=
  (Writer.empty.writeBytes
      ((Writer.empty.writeU8 1 |>.writeU8 2 |>.writeU8 1 |>.writeU8 2
          |>.writeU16 10 |>.writeBytes [0, 0] |>.writeTlv (powSrc env)
          |>.writeTlv (powDigest env)).read)
    |>.writeTlv
      ((Writer.empty.writeU8 1 |>.writeU8 2 |>.writeU8 1 |>.writeU8 2
          |>.writeU16 10 |>.writeBytes [0, 0] |>.writeTlv (powSrc env)
          |>.writeTlv (powDigest env)).read)).read

/-- Encoder of tag 0x548: the solver's output on the t546 challenge,
verbatim. -/
def t548 : Enc := fun c _ env =>
  ((Writer.empty.writeBytes (env.calcPoW (powT546 env))).read, c)

/-- The tag encoder registry `map` of `src/core/tlv.ts`, in source order. -/
def map : List (Nat × Enc) :=
  [(0x01, t01), (0x08, t08), (0x16, t16), (0x18, t18), (0x1B, t1B),
   (0x1D, t1D), (0x1F, t1F), (0x33, t33), (0x35, t35), (0x100, t100),
   (0x104, t104), (0x106, t106), (0x107, t107), (0x108, t108),
   (0x109, t109), (0x10a, t10a), (0x112, t112), (0x116, t116),
   (0x124, t124), (0x128, t128), (0x141, t141), (0x142, t142),
   (0x143, t143), (0x144, t144), (0x145, t145), (0x147, t147),
   (0x154, t154), (0x16a, t16a), (0x16e, t16e), (0x174, t174),
   (0x177, t177), (0x17a, t17a), (0x17c, t17c), (0x187, t187),
   (0x188, t188), (0x191, t191), (0x193, t193), (0x194, t194),
   (0x197, t197), (0x198, t198), (0x202, t202), (0x400, t400),
   (0x401, t401), (0x511, t511), (0x516, t516), (0x521, t521),
   (0x525, t525), (0x523, t523), (0x52d, t52d), (0x542, t542),
   (0x544, t544), (0x545, t545), (0x547, t547), (0x548, t548)]

/-- Registry lookup (`map[tag]`). -/
def lookupEnc (tag : Nat) : Option Enc :=
  (map.find? (fun p => p.1 == tag)).map (·.2)

/-- The dispatch failure: requesting a tag absent from the registry.  The
source crashes on the undefined `map[tag]` lookup; the spec names this
condition `UnknownTagError`. -/
inductive TlvError
  | UnknownTagError

/-- `packTlv`: dispatch to the registry encoder, then prepend the 2-byte
length and the 2-byte tag with `unshift` and finalize. -/
def packTlv (c : BaseClient) (tag : Nat) (args : List Arg) (env : Env) :
    Except TlvError Bytes :=
  match lookupEnc tag with
  | none => .error .UnknownTagError
  | some enc =>
    .ok ((((Writer.mk (enc c args env).1).unshift
      (u16be (enc c args env).1.length)).unshift (u16be tag)).read)

/-- The fixed-width big-endian byte encoding of a number, following the
claim's words: `w` bytes, most significant first. -/
def beBytesFixed (w n : Nat) : Bytes :=
  (List.range w).map (fun i => n / 256 ^ (w - 1 - i) % 256)

/-- The challenge layout asserted by the claim about tag 0x548: the
assembled header and length-prefixed fields, then a raw duplicate of that
buffer, then a length-prefixed duplicate of it. -/
def challengeClaimed (env : Env) : Bytes :=
  (u8 1 ++ u8 2 ++ u8 1 ++ u8 2 ++ u16be 10 ++ [0, 0]
      ++ wtlv (powSrc env) ++ wtlv (powDigest env))
    ++ (u8 1 ++ u8 2 ++ u8 1 ++ u8 2 ++ u16be 10 ++ [0, 0]
      ++ wtlv (powSrc env) ++ wtlv (powDigest env))
    ++ wtlv (u8 1 ++ u8 2 ++ u8 1 ++ u8 2 ++ u16be 10 ++ [0, 0]
      ++ wtlv (powSrc env) ++ wtlv (powDigest env))

/-- A concrete 128-byte PoW seed with admissible first byte 0x01. -/
def cexSeed : Bytes := 1 :: List.replicate 127 0

/-- A concrete environment: the 128-byte draw is `cexSeed`, hashes and
external calls are stub functions. -/
def cexEnv : Env where
  rand := fun n => if n = 128 then cexSeed else []
  draws := []
  nowMs := 0
  md5 := fun _ => []
  sha256 := fun _ => List.replicate 32 0
  teaEncrypt := fun b _ => b
  pbEncode := fun _ => []
  sign := fun _ _ => []
  calcPoW := fun b => b

/-- A concrete session state used to instantiate universally quantified
theorems. -/
def sampleClient : BaseClient where
  uin := 10000
  device :=
    { ip_address := [10, 0, 0, 2], guid := List.replicate 16 3
      imei := strBytes "86810001", imsi := [], mac_address := [2, 0, 0, 0, 0, 1]
      android_id := [7, 7], model := strBytes "M2012K", brand := strBytes "Xiaomi"
      os_type := strBytes "android", sim := strBytes "T-Mobile"
      apn := strBytes "wifi", wifi_bssid := [0, 0, 0, 0, 0, 0]
      wifi_ssid := strBytes "TP-LINK", bootloader := strBytes "U-boot"
      proc_version := strBytes "Linux 4.19", fingerprint := strBytes "fp"
      boot_id := strBytes "b-id", baseband := []
      version := { incremental := strBytes "5891938", release := strBytes "10"
                   codename := strBytes "REL" } }
  apk :=
    { id := strBytes "com.tencent.mobileqq", ver := strBytes "8.9.63"
      sign := List.replicate 16 4, sdkver := strBytes "6.0.0.2546"
      name := strBytes " A8.9.63.11565", ssover := 20, appid := 16
      subid := 537164840, bitmap := 150470524, main_sig_map := 16724722
      sub_sig_map := 66560, buildtime := 1685069178 }
  sig :=
    { t104 := [1, 4], tgtgt := List.replicate 16 9, tgt := [5, 6]
      d2 := [7, 8], srm_token := [9], t174 := [], t547 := []
      ksid := some (strBytes "ksid"), seq := 11 }

/-- `sampleClient` with every truncatable device field strictly longer
than its documented cap. -/
def sampleClientLong : BaseClient :=
  { sampleClient with device :=
    { sampleClient.device with
        os_type := List.replicate 20 1
        sim := List.replicate 20 2
        apn := List.replicate 20 3
        model := List.replicate 40 4
        guid := List.replicate 20 5
        brand := List.replicate 20 6
        version := { sampleClient.device.version with
                       release := List.replicate 20 7 } } }

/-- A concrete environment for instantiating universally quantified
theorems. -/
def sampleEnv : Env where
  rand := fun n => List.replicate n 8
  draws := []
  nowMs := 1700000000000
  md5 := fun _ => List.replicate 16 1
  sha256 := fun _ => List.replicate 32 2
  teaEncrypt := fun b _ => b
  pbEncode := fun _ => [8, 0]
  sign := fun _ _ => List.replicate 16 5
  calcPoW := fun b => b

theorem beVal_pair (a b : Nat) : beVal [a, b] = 256 * a + b := by
  simp [beVal]

/-- Every tag id in the registry fits in 16 bits. -/
theorem map_keys_lt : ∀ p ∈ map, p.1 < 65536 := by
  intro p hp
  fin_cases hp <;> norm_num

/-- Every registered encoder returns the session state unchanged. -/
theorem map_enc_pure : ∀ p ∈ map, ∀ c args env, (p.2 c args env).2 = c := by
  intro p hp
  fin_cases hp <;> intro c args env <;> rfl

/-- A successful registry lookup comes from a registry entry. -/
theorem lookupEnc_some {tag : Nat} {enc : Enc} (h : lookupEnc tag = some enc) :
    ∃ p ∈ map, p.1 = tag ∧ p.2 = enc := by
  unfold lookupEnc at h
  cases hf : map.find? (fun p => p.1 == tag) with
  | none => rw [hf] at h; simp at h
  | some p =>
    rw [hf] at h
    simp at h
    exact ⟨p, List.mem_of_find?_eq_some hf,
      by simpa using List.find?_some hf, h⟩

/-- On a registered tag, `packTlv` frames the encoder's payload. -/
theorem packTlv_ok {tag : Nat} {enc : Enc} (h : lookupEnc tag = some enc)
    (c : BaseClient) (args : List Arg) (env : Env) :
    packTlv c tag args env = .ok (pack1 tag (enc c args env).1) := by
  simp [packTlv, h, Writer.unshift, Writer.read, pack1, List.append_assoc]

/-- Shape of one framed TLV block. -/
theorem pack1_props (tag : Nat) (t : Bytes) (htag : tag < 65536)
    (hlen : t.length < 65536) :
    (pack1 tag t).length = 4 + t.length ∧
    beVal ((pack1 tag t).take 2) = tag ∧
    beVal (((pack1 tag t).drop 2).take 2) = t.length ∧
    (pack1 tag t).drop 4 = t := by
  refine ⟨?_, ?_, ?_, ?_⟩ <;>
    simp [pack1, u16be, beVal] <;> omega

/-- C1: for every tag in the registry and every accepted argument list,
`pack(tag, args)` returns a buffer of length exactly `4 + payload.length`
whose first 2 bytes big-endian-decode to the tag, whose next 2 bytes
big-endian-decode to the payload length, and whose remaining bytes are the
encoder's payload unchanged. -/
theorem packTlv_frames (tag : Nat) (enc : Enc) (h : lookupEnc tag = some enc)
    (c : BaseClient) (args : List Arg) (env : Env)
    (hlen : (enc c args env).1.length < 65536) :
    ∃ buf, packTlv c tag args env = .ok buf ∧
      buf.length = 4 + (enc c args env).1.length ∧
      beVal (buf.take 2) = tag ∧
      beVal ((buf.drop 2).take 2) = (enc c args env).1.length ∧
      buf.drop 4 = (enc c args env).1 := by
  obtain ⟨p, hp, htag, henc⟩ := lookupEnc_some h
  have hb := pack1_props tag (enc c args env).1 (htag ▸ map_keys_lt p hp) hlen
  exact ⟨pack1 tag (enc c args env).1, packTlv_ok h c args env,
    hb.1, hb.2.1, hb.2.2.1, hb.2.2.2⟩

/-- Witness for `packTlv_frames`: tag 0x08 on concrete inputs. -/
theorem packTlv_frames_witness :
    (lookupEnc 0x08 = some t08 ∧
      (t08 sampleClient [] sampleEnv).1.length < 65536) ∧
    ∃ buf, packTlv sampleClient 0x08 [] sampleEnv = .ok buf ∧
      buf.length = 4 + (t08 sampleClient [] sampleEnv).1.length ∧
      beVal (buf.take 2) = 0x08 ∧
      beVal ((buf.drop 2).take 2) = (t08 sampleClient [] sampleEnv).1.length ∧
      buf.drop 4 = (t08 sampleClient [] sampleEnv).1 :=
  ⟨⟨rfl, by decide⟩,
    packTlv_frames 0x08 t08 rfl sampleClient [] sampleEnv (by decide)⟩

/-- C5: for every tag id not present in the encoder registry, `pack`
fails with the unknown-tag error. -/
theorem packTlv_unknown_tag (tag : Nat) (h : lookupEnc tag = none)
    (c : BaseClient) (args : List Arg) (env : Env) :
    packTlv c tag args env = .error .UnknownTagError := by
  simp [packTlv, h]

/-- Witness for `packTlv_unknown_tag`: tag 0x02 is unregistered. -/
theorem packTlv_unknown_tag_witness :
    lookupEnc 0x02 = none ∧
    packTlv sampleClient 0x02 [] sampleEnv = .error .UnknownTagError :=
  ⟨rfl, packTlv_unknown_tag 0x02 rfl sampleClient [] sampleEnv⟩

/-- C6: no registry encoder mutates the session state — every encoder
returns the client unchanged — and the tag-0x154 encoder writes the current
sequence counter plus one as a peek, leaving the state unchanged. -/
theorem encoders_read_only (tag : Nat) (enc : Enc)
    (h : lookupEnc tag = some enc)
    (c : BaseClient) (args : List Arg) (env : Env) :
    (enc c args env).2 = c ∧
    (t154 c args env).1 = u32be (c.sig.seq + 1) ∧
    (t154 c args env).2 = c := by
  obtain ⟨p, hp, _, henc⟩ := lookupEnc_some h
  exact ⟨henc ▸ map_enc_pure p hp c args env, rfl, rfl⟩

/-- Witness for `encoders_read_only`: tag 0x154 on concrete inputs. -/
theorem encoders_read_only_witness :
    lookupEnc 0x154 = some t154 ∧
    ((t154 sampleClient [] sampleEnv).2 = sampleClient ∧
      (t154 sampleClient [] sampleEnv).1 = u32be (sampleClient.sig.seq + 1) ∧
      (t154 sampleClient [] sampleEnv).2 = sampleClient) :=
  ⟨rfl, encoders_read_only 0x154 t154 rfl sampleClient [] sampleEnv⟩

/-- C4: the tag-0x144 payload is the TEA encryption, under `sig.tgtgt`, of
a 2-byte count of 5 followed by the packed TLV blocks of tags 0x109,
0x52d, 0x124, 0x128 and 0x16e, in that order. -/
theorem t144_encrypted_stream (c : BaseClient) (args : List Arg) (env : Env) :
    ∃ b109 b52d b124 b128 b16e,
      packTlv c 0x109 [] env = .ok b109 ∧
      packTlv c 0x52d [] env = .ok b52d ∧
      packTlv c 0x124 [] env = .ok b124 ∧
      packTlv c 0x128 [] env = .ok b128 ∧
      packTlv c 0x16e [] env = .ok b16e ∧
      (t144 c args env).1
        = env.teaEncrypt (u16be 5 ++ b109 ++ b52d ++ b124 ++ b128 ++ b16e)
            c.sig.tgtgt ∧
      (t144 c args env).2 = c := by
  refine ⟨_, _, _, _, _, @packTlv_ok 0x109 t109 rfl c [] env,
    @packTlv_ok 0x52d t52d rfl c [] env, @packTlv_ok 0x124 t124 rfl c [] env,
    @packTlv_ok 0x128 t128 rfl c [] env, @packTlv_ok 0x16e t16e rfl c [] env,
    ?_, rfl⟩
  simp [t144, Writer.empty, Writer.writeU16, Writer.writeBytes, Writer.read,
    List.append_assoc]

/-- C7: in the encoders of tags 0x124 and 0x128, every device field longer
than its cap (model 32; OS type, OS release, sim, apn, guid, brand 16) is
silently truncated to its left-most cap bytes before length-prefix
encoding: the prefixed length is exactly the cap and the field bytes are
the first cap bytes of the input. -/
theorem device_field_truncation (c : BaseClient) (args : List Arg) (env : Env)
    (hos : 16 < c.device.os_type.length)
    (hrel : 16 < c.device.version.release.length)
    (hsim : 16 < c.device.sim.length)
    (hapn : 16 < c.device.apn.length)
    (hmodel : 32 < c.device.model.length)
    (hguid : 16 < c.device.guid.length)
    (hbrand : 16 < c.device.brand.length) :
    (t124 c args env).1
      = u16be 16 ++ c.device.os_type.take 16
        ++ u16be 16 ++ c.device.version.release.take 16
        ++ u16be 2 ++ u16be 16 ++ c.device.sim.take 16
        ++ u16be 0 ++ u16be 16 ++ c.device.apn.take 16 ∧
    (t128 c args env).1
      = u16be 0 ++ u8 0 ++ u8 1 ++ u8 0 ++ u32be 16777216
        ++ u16be 32 ++ c.device.model.take 32
        ++ u16be 16 ++ c.device.guid.take 16
        ++ u16be 16 ++ c.device.brand.take 16 ∧
    (c.device.os_type.take 16).length = 16 ∧
    (c.device.version.release.take 16).length = 16 ∧
    (c.device.sim.take 16).length = 16 ∧
    (c.device.apn.take 16).length = 16 ∧
    (c.device.model.take 32).length = 32 ∧
    (c.device.guid.take 16).length = 16 ∧
    (c.device.brand.take 16).length = 16 := by
  have h1 : (c.device.os_type.take 16).length = 16 := by
    rw [List.length_take]; omega
  have h2 : (c.device.version.release.take 16).length = 16 := by
    rw [List.length_take]; omega
  have h3 : (c.device.sim.take 16).length = 16 := by
    rw [List.length_take]; omega
  have h4 : (c.device.apn.take 16).length = 16 := by
    rw [List.length_take]; omega
  have h5 : (c.device.model.take 32).length = 32 := by
    rw [List.length_take]; omega
  have h6 : (c.device.guid.take 16).length = 16 := by
    rw [List.length_take]; omega
  have h7 : (c.device.brand.take 16).length = 16 := by
    rw [List.length_take]; omega
  refine ⟨?_, ?_, h1, h2, h3, h4, h5, h6, h7⟩
  · simp [t124, Writer.empty, Writer.writeTlv, Writer.writeU16, Writer.read,
      wtlv, h1, h2, h3, h4, List.append_assoc]
  · simp [t128, Writer.empty, Writer.writeTlv, Writer.writeU16, Writer.writeU8,
      Writer.writeU32, Writer.read, wtlv, h5, h6, h7, List.append_assoc]

/-- Witness for `device_field_truncation`: a client whose fields are 20 or
40 bytes long. -/
theorem device_field_truncation_witness :
    (16 < sampleClientLong.device.os_type.length ∧
      16 < sampleClientLong.device.version.release.length ∧
      16 < sampleClientLong.device.sim.length ∧
      16 < sampleClientLong.device.apn.length ∧
      32 < sampleClientLong.device.model.length ∧
      16 < sampleClientLong.device.guid.length ∧
      16 < sampleClientLong.device.brand.length) ∧
    (sampleClientLong.device.model.take 32).length = 32 :=
  ⟨⟨by decide, by decide, by decide, by decide, by decide, by decide,
      by decide⟩,
    (device_field_truncation sampleClientLong [] sampleEnv (by decide)
      (by decide) (by decide) (by decide) (by decide) (by decide)
      (by decide)).2.2.2.2.2.2.1⟩

/-- The tag-0x511 domain loop appends one marker/length-prefixed entry per
domain. -/
theorem foldl_domains (L : List Bytes) (w : Writer) :
    (L.foldl (fun s v => (s.writeU8 1).writeTlv v) w).buf
      = w.buf ++ L.flatMap (fun v => u8 1 ++ wtlv v) := by
  induction L generalizing w with
  | nil => simp
  | cons v L ih =>
    rw [List.foldl_cons, ih]
    simp [Writer.writeU8, Writer.writeTlv, List.append_assoc]

/-- C8: the tag-0x511 payload is a 2-byte big-endian count equal to the
fixed enabled-domain-set size (19), followed by exactly that many entries,
each the marker byte 0x01 and a 2-byte-length-prefixed domain, and repeated
calls produce identical bytes in identical order. -/
theorem t511_domain_layout (c : BaseClient) (args : List Arg) (env : Env) :
    (t511 c args env).1
      = u16be domainsSet.length
        ++ domainsSet.flatMap (fun v => u8 1 ++ wtlv v) ∧
    domainsSet.length = 19 ∧
    domainsSet = enabledDomains ∧
    ∀ (args' : List Arg) (env' : Env),
      (t511 c args' env').1 = (t511 c args env).1 := by
  refine ⟨?_, by decide, by decide, fun args' env' => rfl⟩
  simp [t511, foldl_domains, Writer.empty, Writer.writeU16, Writer.read]

/-- C9: the tag-0x544 encoder with version -1 returns the supplied
signature bytes verbatim, for every environment (so it never consults the
external signer or the clock), and leaves the session state unchanged. -/
theorem t544_passthrough (c : BaseClient) (subCmd : Int) (sd : Bytes)
    (env : Env) :
    (t544 c [.num (-1), .num subCmd, .buf sd] env).1 = sd ∧
    (t544 c [.num (-1), .num subCmd, .buf sd] env).2 = c := by
  constructor
  · simp [t544, argNum, argBuf, Writer.empty, Writer.writeBytes, Writer.read]
  · rfl

/-- C10: the tag-0x100 encoder writes the application profile's sub-id when
the sub-id argument is omitted or zero, and the argument itself when it is
non-zero. -/
theorem t100_subid_fallback (c : BaseClient) (env : Env) (v : Nat)
    (hv : v ≠ 0) (hlt : v < 2 ^ 32) :
    (t100 c [] env).1
      = u16be 1 ++ u32be c.apk.ssover ++ u32be c.apk.appid
        ++ u32be c.apk.subid ++ u32be 0 ++ u32be c.apk.main_sig_map ∧
    (t100 c [.num 0] env).1
      = u16be 1 ++ u32be c.apk.ssover ++ u32be c.apk.appid
        ++ u32be c.apk.subid ++ u32be 0 ++ u32be c.apk.main_sig_map ∧
    (t100 c [.num (v : Int)] env).1
      = u16be 1 ++ u32be c.apk.ssover ++ u32be c.apk.appid
        ++ u32be v ++ u32be 0 ++ u32be c.apk.main_sig_map := by
  have hv32 : intToU32 (v : Int) = v := by
    rw [intToU32, show ((2 : Int) ^ 32) = 4294967296 by norm_num]
    omega
  refine ⟨?_, ?_, ?_⟩ <;>
    simp [t100, argNum, Writer.empty, Writer.writeU16, Writer.writeU32,
      Writer.write32, Writer.read, hv32, hv, List.append_assoc]

/-- Witness for `t100_subid_fallback`: explicit sub-id 5. -/
theorem t100_subid_fallback_witness :
    ((5 : Nat) ≠ 0 ∧ (5 : Nat) < 2 ^ 32) ∧
    (t100 sampleClient [.num ((5 : Nat) : Int)] sampleEnv).1
      = u16be 1 ++ u32be sampleClient.apk.ssover
        ++ u32be sampleClient.apk.appid ++ u32be 5 ++ u32be 0
        ++ u32be sampleClient.apk.main_sig_map :=
  ⟨⟨by decide, by decide⟩,
    (t100_subid_fallback sampleClient sampleEnv 5 (by decide)
      (by decide)).2.2⟩

theorem hexVal_append_single (ds : List Nat) (d : Nat) :
    hexVal (ds ++ [d]) = 16 * hexVal ds + d := by
  simp [hexVal, List.foldl_append]

theorem natToHexDigitsAux_val :
    ∀ fuel n, n ≤ fuel → hexVal (natToHexDigitsAux fuel n) = n := by
  intro fuel
  induction fuel with
  | zero =>
    intro n hn
    have : n = 0 := by omega
    subst this
    simp [natToHexDigitsAux, hexVal]
  | succ f ih =>
    intro n hn
    simp only [natToHexDigitsAux]
    by_cases h0 : n = 0
    · simp [h0, hexVal]
    · rw [if_neg h0, hexVal_append_single, ih (n / 16) ?_]
      · omega
      · have : n / 16 < n := Nat.div_lt_self (by omega) (by norm_num)
        omega

theorem natToHexDigitsAux_len :
    ∀ fuel n k, n ≤ fuel → n < 16 ^ k →
      (natToHexDigitsAux fuel n).length ≤ k := by
  intro fuel
  induction fuel with
  | zero =>
    intro n k hn _
    have : n = 0 := by omega
    subst this
    simp [natToHexDigitsAux]
  | succ f ih =>
    intro n k hn hk
    simp only [natToHexDigitsAux]
    by_cases h0 : n = 0
    · simp [h0]
    · rw [if_neg h0]
      obtain ⟨k', rfl⟩ : ∃ k', k = k' + 1 := by
        cases k with
        | zero => simp at hk; omega
        | succ k' => exact ⟨k', rfl⟩
      have hdiv : n / 16 < 16 ^ k' := by
        rw [Nat.div_lt_iff_lt_mul (by norm_num)]
        calc n < 16 ^ (k' + 1) := hk
          _ = 16 ^ k' * 16 := by rw [pow_succ]
      have hfuel : n / 16 ≤ f := by
        have : n / 16 < n := Nat.div_lt_self (by omega) (by norm_num)
        omega
      have := ih (n / 16) k' hfuel hdiv
      simp only [List.length_append, List.length_cons, List.length_nil]
      omega

theorem natToHexDigits_val (n : Nat) : hexVal (natToHexDigits n) = n := by
  rw [natToHexDigits]
  by_cases h : n = 0
  · simp [h, hexVal]
  · rw [if_neg h]
    exact natToHexDigitsAux_val n n le_rfl

theorem natToHexDigits_len (n k : Nat) (hk : 1 ≤ k) (h : n < 16 ^ k) :
    (natToHexDigits n).length ≤ k := by
  rw [natToHexDigits]
  by_cases h0 : n = 0
  · simp [h0]; omega
  · rw [if_neg h0]
    exact natToHexDigitsAux_len n n k le_rfl h

theorem hexVal_replicate_zero (m : Nat) :
    (List.replicate m 0).foldl (fun a d => 16 * a + d) 0 = 0 := by
  induction m with
  | zero => rfl
  | succ m ih => simpa [List.replicate_succ] using ih

theorem hexVal_padStart (w : Nat) (ds : List Nat) :
    hexVal (padStart w ds) = hexVal ds := by
  rw [padStart, hexVal, List.foldl_append, hexVal_replicate_zero]
  rfl

theorem padStart_len (w : Nat) (ds : List Nat) (h : ds.length ≤ w) :
    (padStart w ds).length = w := by
  simp [padStart]
  omega

theorem hexDigitsToBytes_foldl :
    ∀ (fuel : Nat) (ds : List Nat), ds.length ≤ fuel → ds.length % 2 = 0 →
      ∀ a : Nat,
        (hexDigitsToBytes ds).foldl (fun x b => 256 * x + b) a
          = ds.foldl (fun x d => 16 * x + d) a := by
  intro fuel
  induction fuel with
  | zero =>
    intro ds h _ a
    have : ds = [] := List.length_eq_zero.mp (by omega)
    subst this
    simp [hexDigitsToBytes]
  | succ f ih =>
    intro ds hlen hp a
    rcases ds with _ | ⟨d1, _ | ⟨d2, rest⟩⟩
    · simp [hexDigitsToBytes]
    · simp at hp
    · have h1 : rest.length ≤ f := by simp at hlen; omega
      have h2 : rest.length % 2 = 0 := by simp at hp; omega
      simp only [hexDigitsToBytes, List.foldl_cons]
      rw [ih rest h1 h2]
      congr 1
      ring

theorem hexDigitsToBytes_len :
    ∀ (fuel : Nat) (ds : List Nat), ds.length ≤ fuel →
      (hexDigitsToBytes ds).length = ds.length / 2 := by
  intro fuel
  induction fuel with
  | zero =>
    intro ds h
    have : ds = [] := List.length_eq_zero.mp (by omega)
    subst this
    simp [hexDigitsToBytes]
  | succ f ih =>
    intro ds hlen
    rcases ds with _ | ⟨d1, _ | ⟨d2, rest⟩⟩
    · simp [hexDigitsToBytes]
    · simp [hexDigitsToBytes]
    · have h1 : rest.length ≤ f := by simp at hlen; omega
      simp only [hexDigitsToBytes, List.length_cons]
      rw [ih rest h1]
      omega

theorem beVal_hexDigitsToBytes (ds : List Nat) (h : ds.length % 2 = 0) :
    beVal (hexDigitsToBytes ds) = hexVal ds :=
  hexDigitsToBytes_foldl ds.length ds le_rfl h 0

theorem bytesToHexDigits_cons (b : Nat) (bs : Bytes) :
    bytesToHexDigits (b :: bs) = b / 16 :: b % 16 :: bytesToHexDigits bs := by
  simp [bytesToHexDigits]

theorem hexVal_bytesToHexDigits (bs : Bytes) :
    hexVal (bytesToHexDigits bs) = beVal bs := by
  suffices h : ∀ a, (bytesToHexDigits bs).foldl (fun x d => 16 * x + d) a
      = bs.foldl (fun x b => 256 * x + b) a from h 0
  induction bs with
  | nil => intro a; simp [bytesToHexDigits]
  | cons b bs ih =>
    intro a
    rw [bytesToHexDigits_cons, List.foldl_cons, List.foldl_cons, ih,
      List.foldl_cons]
    congr 1
    omega

theorem beVal_foldl_acc :
    ∀ (bs : Bytes) (a : Nat),
      bs.foldl (fun x b => 256 * x + b) a = a * 256 ^ bs.length + beVal bs := by
  intro bs
  induction bs with
  | nil => intro a; simp [beVal]
  | cons b bs ih =>
    intro a
    simp only [List.foldl_cons, List.length_cons]
    rw [ih]
    have hb : beVal (b :: bs) = (256 * 0 + b) * 256 ^ bs.length + beVal bs := by
      rw [beVal, List.foldl_cons, ih]
    rw [hb, pow_succ]
    ring

theorem beVal_cons (b : Nat) (bs : Bytes) :
    beVal (b :: bs) = b * 256 ^ bs.length + beVal bs := by
  rw [beVal, List.foldl_cons, beVal_foldl_acc]
  norm_num

theorem beVal_lt (bs : Bytes) (h : ∀ b ∈ bs, b < 256) :
    beVal bs < 256 ^ bs.length := by
  induction bs with
  | nil => simp [beVal]
  | cons b bs ih =>
    rw [beVal_cons, List.length_cons, pow_succ]
    have hb : b < 256 := h b (by simp)
    have hbs := ih (fun x hx => h x (by simp [hx]))
    calc b * 256 ^ bs.length + beVal bs
        < b * 256 ^ bs.length + 256 ^ bs.length := by omega
      _ = (b + 1) * 256 ^ bs.length := by ring
      _ ≤ 256 * 256 ^ bs.length := Nat.mul_le_mul_right _ (by omega)
      _ = 256 ^ bs.length * 256 := by ring

theorem beVal_replicate_zero (m : Nat) : beVal (List.replicate m 0) = 0 := by
  induction m with
  | zero => rfl
  | succ m ih =>
    rw [List.replicate_succ, beVal_cons, ih]
    simp

/-- The target value of an admissible 128-byte seed stays below `16 ^ 256`,
so `toString(16)` has at most 256 hex digits. -/
theorem pow_seed_bound (b : Nat) (bs : Bytes) (hb : b < 256)
    (hb255 : b ≠ 255) (hlen : bs.length = 127) (hbs : ∀ x ∈ bs, x < 256) :
    beVal (b :: bs) + 10000 < 16 ^ 256 := by
  have h1 : beVal bs < 256 ^ 127 := hlen ▸ beVal_lt bs hbs
  have h2 : (10000 : Nat) < 256 ^ 127 := by
    calc (10000 : Nat) < 256 ^ 2 := by norm_num
      _ ≤ 256 ^ 127 := Nat.pow_le_pow_right (by norm_num) (by norm_num)
  have h16 : (256 : Nat) ^ 128 = 16 ^ 256 := by
    calc (256 : Nat) ^ 128 = (16 ^ 2) ^ 128 := by norm_num
      _ = 16 ^ (2 * 128) := (pow_mul 16 2 128).symm
      _ = 16 ^ 256 := by norm_num
  rw [beVal_cons, hlen, ← h16]
  have hb' : b ≤ 254 := by omega
  have h3 : b * 256 ^ 127 ≤ 254 * 256 ^ 127 :=
    Nat.mul_le_mul_right _ hb'
  calc b * 256 ^ 127 + beVal bs + 10000
      < 254 * 256 ^ 127 + 256 ^ 127 + 256 ^ 127 := by omega
    _ = 256 ^ 127 * 256 := by ring
    _ = 256 ^ 128 := (pow_succ 256 127).symm

theorem resampleFirst_eq (b : Nat) (ds : List Nat) (h0 : b ≠ 0)
    (h255 : b ≠ 255) : resampleFirst b ds = b := by
  cases ds with
  | nil => rfl
  | cons d ds => simp [resampleFirst, h0, h255]

/-- Shape and value of the PoW target for any seed whose target value fits
in 256 hex digits: 128 bytes whose big-endian value is the seed's value
plus 10000. -/
theorem powDst_spec (src : Bytes)
    (h : hexVal (bytesToHexDigits src) + 10000 < 16 ^ 256) :
    (powDst src).length = 128 ∧ beVal (powDst src) = beVal src + 10000 := by
  have hdl : (natToHexDigits
      (hexVal (bytesToHexDigits src) + 10000)).length ≤ 256 :=
    natToHexDigits_len _ 256 (by norm_num) h
  have hpl : (padStart 256 (natToHexDigits
      (hexVal (bytesToHexDigits src) + 10000))).length = 256 :=
    padStart_len _ _ hdl
  constructor
  · rw [powDst, hexDigitsToBytes_len (padStart 256 _).length _ le_rfl, hpl]
  · rw [powDst, beVal_hexDigitsToBytes _ (by rw [hpl]), hexVal_padStart,
      natToHexDigits_val, hexVal_bytesToHexDigits]

/-- C2 (amended): for every 128-byte seed whose first byte is neither 0x00
nor 0xFF, the seed-fixing loop keeps the seed, the target is the seed's
big-endian value plus 10000 re-encoded as a fixed-width 128-byte big-endian
byte string (256 hex digits), the digest is the SHA-256 hash of the target,
and target and digest are determined by the seed (and hash). -/
theorem pow_target_props (env : Env)
    (hlen : (env.rand 128).length = 128)
    (hbytes : ∀ b ∈ env.rand 128, b < 256)
    (hh0 : (env.rand 128).headD 0 ≠ 0)
    (hh255 : (env.rand 128).headD 0 ≠ 255) :
    powSrc env = env.rand 128 ∧
    (powDst (powSrc env)).length = 128 ∧
    beVal (powDst (powSrc env)) = beVal (env.rand 128) + 10000 ∧
    powDigest env = env.sha256 (powDst (powSrc env)) ∧
    ∀ env' : Env, env'.rand 128 = env.rand 128 → env'.draws = env.draws →
      env'.sha256 = env.sha256 →
      powDst (powSrc env') = powDst (powSrc env) ∧
      powDigest env' = powDigest env := by
  obtain ⟨b, bs, hsrc⟩ : ∃ b bs, env.rand 128 = b :: bs := by
    cases hr : env.rand 128 with
    | nil => rw [hr] at hlen; simp at hlen
    | cons b bs => exact ⟨b, bs, rfl⟩
  have hb0 : b ≠ 0 := by rw [hsrc] at hh0; simpa using hh0
  have hb255 : b ≠ 255 := by rw [hsrc] at hh255; simpa using hh255
  have hps : powSrc env = env.rand 128 := by
    unfold powSrc
    rw [hsrc]
    show resampleFirst b env.draws :: bs = b :: bs
    rw [resampleFirst_eq b env.draws hb0 hb255]
  have hbound : hexVal (bytesToHexDigits (env.rand 128)) + 10000
      < 16 ^ 256 := by
    rw [hexVal_bytesToHexDigits, hsrc]
    refine pow_seed_bound b bs (hbytes b (by rw [hsrc]; simp)) hb255 ?_ ?_
    · rw [hsrc] at hlen; simpa using hlen
    · intro x hx; exact hbytes x (by rw [hsrc]; simp [hx])
  have hspec := powDst_spec (env.rand 128) hbound
  refine ⟨hps, by rw [hps]; exact hspec.1, by rw [hps]; exact hspec.2,
    rfl, ?_⟩
  intro env' h1 h2 h3
  have hsame : powSrc env' = powSrc env := by
    unfold powSrc
    rw [h1, h2]
  exact ⟨by rw [hsame], by rw [powDigest, powDigest, hsame, h3]⟩

set_option maxRecDepth 100000 in
/-- Witness for `pow_target_props`: the concrete environment `cexEnv`. -/
theorem pow_target_props_witness :
    ((cexEnv.rand 128).length = 128 ∧ (∀ b ∈ cexEnv.rand 128, b < 256) ∧
      (cexEnv.rand 128).headD 0 ≠ 0 ∧ (cexEnv.rand 128).headD 0 ≠ 255) ∧
    (powSrc cexEnv = cexEnv.rand 128 ∧
      (powDst (powSrc cexEnv)).length = 128 ∧
      beVal (powDst (powSrc cexEnv)) = beVal (cexEnv.rand 128) + 10000 ∧
      powDigest cexEnv = cexEnv.sha256 (powDst (powSrc cexEnv)) ∧
      ∀ env' : Env, env'.rand 128 = cexEnv.rand 128 →
        env'.draws = cexEnv.draws → env'.sha256 = cexEnv.sha256 →
        powDst (powSrc env') = powDst (powSrc cexEnv) ∧
        powDigest env' = powDigest cexEnv) :=
  ⟨⟨by decide, by decide, by decide, by decide⟩,
    pow_target_props cexEnv (by decide) (by decide) (by decide) (by decide)⟩

set_option maxRecDepth 100000 in
/-- The claim's fixed-width 256-byte target assertion fails at the
concrete admissible seed `cexSeed` (first byte 0x01): the code's target
has 128 bytes, so it is not the 256-byte encoding the claim asserts. -/
theorem pow_target_not_256_bytes :
    powSrc cexEnv = cexSeed ∧
    (powDst (powSrc cexEnv)).length = 128 ∧
    powDst (powSrc cexEnv)
      ≠ beBytesFixed 256 (beVal (powSrc cexEnv) + 10000) := by
  have hps : powSrc cexEnv = cexSeed := by decide
  have hbound : hexVal (bytesToHexDigits cexSeed) + 10000 < 16 ^ 256 := by
    rw [hexVal_bytesToHexDigits]
    refine pow_seed_bound 1 (List.replicate 127 0) (by norm_num)
      (by norm_num) (by simp) ?_
    intro x hx
    rw [List.eq_of_mem_replicate hx]
    norm_num
  have hspec := powDst_spec cexSeed hbound
  refine ⟨hps, by rw [hps]; exact hspec.1, ?_⟩
  rw [hps]
  intro heq
  have hl := congrArg List.length heq
  rw [hspec.1, beBytesFixed, List.length_map, List.length_range] at hl
  norm_num at hl

/-- C3 (amended): the tag-0x548 payload is the external solver's output,
verbatim, on the t546 challenge, and — because the first `read()` drains
the writer — the challenge is the assembled buffer (header, length-prefixed
seed, length-prefixed digest) followed by a length-prefixed duplicate of
it: two copies in total, not three. -/
theorem pow_challenge_layout (c : BaseClient) (args : List Arg) (env : Env) :
    (t548 c args env).1 = env.calcPoW (powT546 env) ∧
    (t548 c args env).2 = c ∧
    powT546 env =
      (u8 1 ++ u8 2 ++ u8 1 ++ u8 2 ++ u16be 10 ++ [0, 0]
          ++ wtlv (powSrc env) ++ wtlv (powDigest env))
        ++ wtlv (u8 1 ++ u8 2 ++ u8 1 ++ u8 2 ++ u16be 10 ++ [0, 0]
          ++ wtlv (powSrc env) ++ wtlv (powDigest env)) := by
  refine ⟨by simp [t548, Writer.empty, Writer.writeBytes, Writer.read],
    rfl, ?_⟩
  simp [powT546, Writer.empty, Writer.writeU8, Writer.writeU16,
    Writer.writeBytes, Writer.writeTlv, Writer.read, wtlv,
    List.append_assoc]

set_option maxRecDepth 100000 in
/-- The claim's three-copy challenge layout fails at the concrete
environment `cexEnv`: the code's challenge drops the first copy consumed by
the draining `read()`. -/
theorem pow_challenge_counterexample :
    powT546 cexEnv ≠ challengeClaimed cexEnv := by
  decide

end Tlv
